import Mathlib

/-!
Shallow embedding of the poe-api-proxy server code.

The repository contains one Express server (src/src/server.ts, two concatenated
variants), one Cloudflare-Workers variant (src/unnamed/part_000) and one older
Express variant (src/unnamed/part_001).  All variants share the same
`rateLimitedFetch` gate, the same stats-cache handler logic and the same
search handler logic; the definitions below are translated from the second
variant of src/src/server.ts (the one with the stats cache), which the other
variants match verbatim on every modelled line.

Times are milliseconds since epoch, modelled as `Int` (JavaScript `Date.now()`
values).  Upstream HTTP responses are modelled by their status code and the
outcome of `response.json()`; a thrown exception (network error or JSON parse
failure) is a separate constructor.
-/

namespace PoeProxy

/-- Source constant `MIN_DELAY = 5000` (src/src/server.ts line 298). -/
def MIN_DELAY : Int := 5000

/-- Source constant `STATS_CACHE_TTL = 7 * 24 * 60 * 60 * 1000` (line 315). -/
def STATS_CACHE_TTL : Int := 7 * 24 * 60 * 60 * 1000

/-- Outcome of one gate pass inside `rateLimitedFetch` (lines 320-339):
`waited` is the `setTimeout` duration (0 when the gate is open), `stampTime`
is the instant at which `lastRequestRef.value = Date.now()` executes, and
`refValueAfter` is the value that assignment stores into the ref object. -/
structure GateResult where
  waited : Int
  stampTime : Int
  refValueAfter : Int
  deriving Repr, DecidableEq

/-- The timing core of `rateLimitedFetch(url, options, lastRequestRef, minDelay)`
(src/src/server.ts lines 320-339): read `now`, compute
`timeSince = now - lastRequestRef.value`; if `timeSince < minDelay`, await
`setTimeout(minDelay - timeSince)`; then assign `lastRequestRef.value`
the current time and issue the fetch.  Under an exact scheduler the
`Date.now()` after the wait is `now + waitTime`. -/
def rateLimitedFetchGate (refValue now minDelay : Int) : GateResult :=
  let timeSince := now - refValue
  if timeSince < minDelay then
    let waitTime := minDelay - timeSince
    { waited := waitTime, stampTime := now + waitTime, refValueAfter := now + waitTime }
  else
    { waited := 0, stampTime := now, refValueAfter := now }

/-- Result of an upstream HTTP call as the handlers observe it: either the
fetch resolved with a status code and a `response.json()` outcome (which may
itself throw, the `Except.error` case), or the fetch itself threw. -/
inductive UpstreamOutcome (α : Type) where
  | respond (status : Nat) (body : Except String α)
  | throws (msg : String)
  deriving Repr

/-- The `Response.ok` predicate of the fetch API: status in [200, 300). -/
def statusOk (status : Nat) : Bool := 200 ≤ status && status < 300

/-- Events of one full `rateLimitedFetch` call, in program order:
the optional suspension, the write to `lastRequestRef.value`, the issuing
of `fetch(url, options)`, and the settling of that fetch. -/
inductive CallEvent (α : Type) where
  | wait (ms : Int)
  | stamp (t : Int)
  | fetchIssued
  | fetchReturned (o : UpstreamOutcome α)
  deriving Repr

/-- Event trace of one `rateLimitedFetch` call (lines 320-339) whose upstream
fetch settles with outcome `o`: the wait (when `timeSince < minDelay`) comes
first, then the stamp-write, then the fetch is issued, and only then does the
outcome arrive.  The code between the gate read and the fetch does not inspect
the outcome, so the trace prefix is the same for every `o`. -/
def rateLimitedFetchCallTrace (refValue now minDelay : Int)
    (o : UpstreamOutcome α) : List (CallEvent α) :=
  let timeSince := now - refValue
  (if timeSince < minDelay then [CallEvent.wait (minDelay - timeSince)] else []) ++
  [CallEvent.stamp (rateLimitedFetchGate refValue now minDelay).stampTime,
   CallEvent.fetchIssued, CallEvent.fetchReturned o]

/-- A cache entry (src/src/server.ts lines 308-311): the deserialized payload
and the timestamp recorded when it was stored. -/
structure CacheEntry (α : Type) where
  data : α
  timestamp : Int
  deriving Repr, DecidableEq

/-- The fresh-read check of the stats handlers, inlined in the source as
`if (poe1StatsCache && (now - poe1StatsCache.timestamp) < STATS_CACHE_TTL)`
(line 383): a hit returns the entry, anything else is a miss. -/
def readFresh (cache : Option (CacheEntry α)) (now ttl : Int) :
    Option (CacheEntry α) :=
  match cache with
  | some entry => if now - entry.timestamp < ttl then some entry else none
  | none => none

/-- Values of the `X-Cache` response header set by the stats handlers. -/
inductive XCacheHeader where
  | hit
  | miss
  | stale
  | errorStale
  deriving Repr, DecidableEq

/-- Response of a stats handler: either `res.json(data)` (HTTP 200) with the
`X-Cache` header that was set, or `res.status(code).json` with an error body. -/
inductive StatsResult (α : Type) where
  | okJson (header : XCacheHeader) (data : α)
  | errorStatus (status : Nat) (error : String)
  deriving Repr, DecidableEq

/-- Error body text `PoE API returned N` (src/src/server.ts line 415). -/
def statusErrorText (status : Nat) : String :=
  "PoE API returned " ++ toString status

/-- The GET /api/poe/stats handler (src/src/server.ts lines 375-436), as a
function of the cache state, the `const now = Date.now()` captured at handler
start, and the upstream outcome.  Returns the HTTP response together with the
cache state after the request.  Control flow translated line by line:
fresh cache hit returns the cached data; otherwise the gated fetch runs; a
2xx response is deserialized, stored as a new entry stamped with `now`, and
returned; a 403 with any existing entry returns that entry's data and leaves
the cache untouched; any other non-2xx status surfaces as an error with that
status; an exception (fetch rejection or `response.json()` failure) lands in
the catch block, which returns any existing entry's data, else a 500 carrying
the exception message. -/
def poe1StatsHandler (cache : Option (CacheEntry α)) (now : Int)
    (upstream : UpstreamOutcome α) : StatsResult α × Option (CacheEntry α) :=
  match readFresh cache now STATS_CACHE_TTL with
  | some entry => (StatsResult.okJson XCacheHeader.hit entry.data, cache)
  | none =>
    match upstream with
    | UpstreamOutcome.throws msg =>
      match cache with
      | some entry => (StatsResult.okJson XCacheHeader.errorStale entry.data, cache)
      | none => (StatsResult.errorStatus 500 msg, cache)
    | UpstreamOutcome.respond status body =>
      if statusOk status then
        match body with
        | Except.ok data =>
          (StatsResult.okJson XCacheHeader.miss data,
           some { data := data, timestamp := now })
        | Except.error msg =>
          match cache with
          | some entry => (StatsResult.okJson XCacheHeader.errorStale entry.data, cache)
          | none => (StatsResult.errorStatus 500 msg, cache)
      else
        if status == 403 then
          match cache with
          | some entry => (StatsResult.okJson XCacheHeader.stale entry.data, cache)
          | none => (StatsResult.errorStatus status (statusErrorText status), cache)
        else
          (StatsResult.errorStatus status (statusErrorText status), cache)

/-- Body of the search upstream's JSON (src/src/server.ts line 543 usage):
`id`, the optional `result` identifier array, and `total`.  `result = none`
models an absent field, for which `searchData.result && ...` is falsy. -/
structure SearchData where
  id : String
  result : Option (List String)
  total : Nat
  deriving Repr, DecidableEq

/-- The `item.item` sub-object as the mapper reads it: `name` and `typeLine`;
an empty `name` models a missing or falsy name for `name || typeLine`. -/
structure ItemInfo where
  name : String
  typeLine : String
  deriving Repr, DecidableEq

/-- The `item.listing.price` sub-object: `amount` and `currency`. -/
structure Price where
  amount : Int
  currency : String
  deriving Repr, DecidableEq

/-- The `item.listing` sub-object; `price = none` models a falsy price. -/
structure Listing where
  price : Option Price
  deriving Repr, DecidableEq

/-- One element of `itemsData.result` as the mapper reads it. -/
structure RawItem where
  item : ItemInfo
  listing : Listing
  deriving Repr, DecidableEq

/-- Text returned when a listing has no price (the Korean literal at
src/src/server.ts line 573). -/
def NO_PRICE_TEXT : String := "가격 정보 없음"

/-- One element of the response `items` array (lines 569-577). -/
structure MappedItem where
  name : String
  price : String
  item : ItemInfo
  listing : Listing
  index : Nat
  deriving Repr, DecidableEq

/-- The per-item mapping of `itemsData.result.map((item, index) => ...)`
(src/src/server.ts lines 569-577). -/
def mapItem (raw : RawItem) (index : Nat) : MappedItem :=
  { name := if raw.item.name = "" then raw.item.typeLine else raw.item.name
    price := match raw.listing.price with
      | some p => toString p.amount ++ " " ++ p.currency
      | none => NO_PRICE_TEXT
    item := raw.item
    listing := raw.listing
    index := index }

/-- `itemsData.result.map((item, index) => ...)` over the whole array. -/
def mapItems (raws : List RawItem) : List MappedItem :=
  raws.enum.map fun p => mapItem p.2 p.1

/-- Request body of POST /api/poe/search (line 511 destructuring).  `query`
is an opaque payload; `none` models an absent or falsy query, for which
`!query` is true.  `limit = some 0` is falsy in `limit || 10`. -/
structure SearchBody where
  league : Option String
  query : Option String
  sort : Option String
  limit : Option Int
  deriving Repr, DecidableEq

/-- JavaScript falsiness of an optional string: absent or empty. -/
def jsFalsyStr (s : Option String) : Bool :=
  match s with
  | none => true
  | some v => v.isEmpty

/-- `league || 'Standard'` (line 567). -/
def leagueOrDefault (league : Option String) : String :=
  match league with
  | some v => if v.isEmpty then "Standard" else v
  | none => "Standard"

/-- `limit || 10` (line 546); `0` is falsy in JavaScript. -/
def limitOrDefault (limit : Option Int) : Int :=
  match limit with
  | some v => if v = 0 then 10 else v
  | none => 10

/-- `const actualLimit = Math.min(Math.max(1, limit || 10), 10)` (line 546). -/
def actualLimit (limit : Option Int) : Int :=
  min (max 1 (limitOrDefault limit)) 10

/-- `const resultIds = searchData.result.slice(0, actualLimit)` (line 547);
`actualLimit` is always at least 1, so `slice(0, n)` is `take n`. -/
def resultIds (ids : List String) (limit : Option Int) : List String :=
  ids.take (actualLimit limit).toNat

/-- Successful response body of the search handler (lines 565-578 and
582-587): search id, league, total, and the mapped items array. -/
structure SearchSuccess where
  searchId : String
  league : String
  total : Nat
  items : List MappedItem
  deriving Repr, DecidableEq

/-- Response of the search handler: `res.json(body)` (HTTP 200) or
`res.status(code).json` with an error body. -/
inductive SearchResult where
  | json (body : SearchSuccess)
  | errorStatus (status : Nat) (error : String)
  deriving Repr, DecidableEq

/-- Upstream calls a search request issues, in order: the gated POST to
trade/search, and the gated GET to trade/fetch carrying the identifiers
placed in its URL. -/
inductive SearchCall where
  | searchRequest
  | fetchRequest (ids : List String)
  deriving Repr, DecidableEq

/-- The module-level mutable state of src/src/server.ts (second variant,
lines 294-315): the four gate timestamps, the three request counters and the
two stats caches, all with their initializers in `initialServerState`. -/
structure ServerState (α : Type) where
  lastPoe1StatsRequest : Int
  lastPoe2StatsRequest : Int
  lastSearchRequest : Int
  lastFetchRequest : Int
  poe1StatsRequestCount : Nat
  poe2StatsRequestCount : Nat
  searchRequestCount : Nat
  poe1StatsCache : Option (CacheEntry α)
  poe2StatsCache : Option (CacheEntry α)
  deriving Repr, DecidableEq

/-- The initial module state: timestamps 0, counters 0, caches null. -/
def initialServerState (α : Type) : ServerState α :=
  { lastPoe1StatsRequest := 0
    lastPoe2StatsRequest := 0
    lastSearchRequest := 0
    lastFetchRequest := 0
    poe1StatsRequestCount := 0
    poe2StatsRequestCount := 0
    searchRequestCount := 0
    poe1StatsCache := none
    poe2StatsCache := none }

/-- The POST /api/poe/search handler (src/src/server.ts lines 508-593), as a
function of the module state, the request body, and the outcomes of the two
possible upstream calls.  Returns the response, the module state after the
request, and the ordered list of upstream calls issued.  Control flow
translated line by line: the counter increments first; a falsy `query`
returns 400 before any gate or upstream interaction; a non-ok search
response surfaces its status; a throwing call or a failing `json()` lands in
the catch block (500 with the message); with a nonempty result list the
detail fetch runs on `resultIds`; an ok detail fetch returns the mapped
items, while a non-ok one falls through to the `items: []` response, as does
an empty or absent result list.  Both `rateLimitedFetch` call sites pass a
fresh object literal `(value: lastX)` copying the module variable, so the
stamp-write inside the gate mutates only that temporary and no field of the
module state changes. -/
def poe1SearchHandler (s : ServerState α) (body : SearchBody)
    (searchUpstream : UpstreamOutcome SearchData)
    (fetchUpstream : UpstreamOutcome (List RawItem)) :
    SearchResult × ServerState α × List SearchCall :=
  let s1 := { s with searchRequestCount := s.searchRequestCount + 1 }
  if jsFalsyStr body.query then
    (SearchResult.errorStatus 400 "Query is required", s1, [])
  else
    match searchUpstream with
    | UpstreamOutcome.throws msg =>
      (SearchResult.errorStatus 500 msg, s1, [SearchCall.searchRequest])
    | UpstreamOutcome.respond status sbody =>
      if statusOk status then
        match sbody with
        | Except.error msg =>
          (SearchResult.errorStatus 500 msg, s1, [SearchCall.searchRequest])
        | Except.ok sd =>
          match sd.result with
          | some ids =>
            if ids.length > 0 then
              let rids := resultIds ids body.limit
              match fetchUpstream with
              | UpstreamOutcome.throws msg =>
                (SearchResult.errorStatus 500 msg, s1,
                 [SearchCall.searchRequest, SearchCall.fetchRequest rids])
              | UpstreamOutcome.respond fstatus fbody =>
                if statusOk fstatus then
                  match fbody with
                  | Except.error msg =>
                    (SearchResult.errorStatus 500 msg, s1,
                     [SearchCall.searchRequest, SearchCall.fetchRequest rids])
                  | Except.ok raws =>
                    (SearchResult.json
                      { searchId := sd.id, league := leagueOrDefault body.league
                        total := sd.total, items := mapItems raws },
                     s1, [SearchCall.searchRequest, SearchCall.fetchRequest rids])
                else
                  (SearchResult.json
                    { searchId := sd.id, league := leagueOrDefault body.league
                      total := sd.total, items := [] },
                   s1, [SearchCall.searchRequest, SearchCall.fetchRequest rids])
            else
              (SearchResult.json
                { searchId := sd.id, league := leagueOrDefault body.league
                  total := sd.total, items := [] },
               s1, [SearchCall.searchRequest])
          | none =>
            (SearchResult.json
              { searchId := sd.id, league := leagueOrDefault body.league
                total := sd.total, items := [] },
             s1, [SearchCall.searchRequest])
      else
        (SearchResult.errorStatus status (statusErrorText status), s1,
         [SearchCall.searchRequest])

/-- One POST /api/poe/search pass through the search-route gate, keeping only
the gate interaction: the call site (line 532) builds the object literal
`(value: lastSearchRequest)` — a fresh object holding a copy of the module
variable — and hands it to `rateLimitedFetch`, whose stamp assignment writes
into that temporary.  The temporary is discarded when the call returns, so
the returned module state is unchanged. -/
def searchGateStamp (s : ServerState α) (now : Int) : Int × ServerState α :=
  let r := rateLimitedFetchGate s.lastSearchRequest now MIN_DELAY
  (r.stampTime, s)

/-- Stamp instants produced by consecutive search requests arriving at the
given instants, each routed through `searchGateStamp`. -/
def searchGateStamps (s : ServerState α) : List Int → List Int
  | [] => []
  | t :: ts =>
    let r := searchGateStamp s t
    r.1 :: searchGateStamps r.2 ts

/-- Sanity lemma about `rateLimitedFetchGate` in isolation: had the ref cell
persisted between calls (holding the previous stamp `v`), the next stamp
would always land at or after `v + minDelay`, and the value written back to
the ref is exactly the stamp instant.  This locates the defect behind the
spacing violation at the call sites, not in the gate arithmetic itself. -/
theorem rateLimitedFetchGate_spacing_if_ref_persisted (v now d : Int) :
    v + d ≤ (rateLimitedFetchGate v now d).stampTime ∧
    (rateLimitedFetchGate v now d).refValueAfter =
      (rateLimitedFetchGate v now d).stampTime := by
  unfold rateLimitedFetchGate
  by_cases h : now - v < d <;> simp only [h, if_pos, if_neg, not_false_iff] <;>
    constructor <;> first | omega | rfl | trivial

/-- C7: for every cache state, `now` and `ttl`, the fresh-read check reports
a hit returning entry `e` exactly when the cache holds `e` and
`now - e.timestamp < ttl`; in every other situation (no entry, or an entry
whose age reaches the TTL — a stale entry) it reports a miss. -/
theorem readFresh_hit_iff_fresh_entry (cache : Option (CacheEntry α))
    (now ttl : Int) (e : CacheEntry α) :
    readFresh cache now ttl = some e ↔
      cache = some e ∧ now - e.timestamp < ttl := by
  cases cache with
  | none => simp [readFresh]
  | some entry =>
    by_cases h : now - entry.timestamp < ttl
    · simp only [readFresh, if_pos h, Option.some.injEq]
      constructor
      · intro he
        exact ⟨by rw [he], by rw [← he]; exact h⟩
      · intro hp
        exact (Option.some.injEq entry e).mp (by rw [hp.1])
    · simp only [readFresh, if_neg h]
      constructor
      · intro he
        exact absurd he (by simp)
      · intro hp
        obtain ⟨h1, h2⟩ := hp
        injection h1 with h1
        exact absurd (h1 ▸ h2) h

/-- Witness for C7 at a concrete input: a one-entry cache read within the
TTL returns that entry. -/
theorem readFresh_hit_iff_fresh_entry_witness :
    readFresh (some { data := (3 : Nat), timestamp := 0 }) 5 10 =
      some { data := (3 : Nat), timestamp := 0 } :=
  (readFresh_hit_iff_fresh_entry _ _ _ _).mpr ⟨rfl, by decide⟩

/-- C4: when the cache holds a stale entry and the upstream answers 403, the
stats handler returns that entry's data tagged as the stale fallback and the
cache is left exactly as it was — same data, same timestamp (hence still
stale). -/
theorem stats_403_stale_fallback_cache_unchanged (entry : CacheEntry α)
    (now : Int) (body : Except String α)
    (hstale : STATS_CACHE_TTL ≤ now - entry.timestamp) :
    poe1StatsHandler (some entry) now (UpstreamOutcome.respond 403 body) =
      (StatsResult.okJson XCacheHeader.stale entry.data, some entry) := by
  have h1 : ¬ now - entry.timestamp < STATS_CACHE_TTL := not_lt.mpr hstale
  simp [poe1StatsHandler, readFresh, h1, statusOk]

/-- Witness for C4 at a concrete input: entry written at time 0, read at the
TTL boundary, upstream 403. -/
theorem stats_403_stale_fallback_cache_unchanged_witness :
    poe1StatsHandler (some { data := (5 : Nat), timestamp := 0 })
        STATS_CACHE_TTL (UpstreamOutcome.respond 403 (Except.ok 9)) =
      (StatsResult.okJson XCacheHeader.stale 5,
       some { data := (5 : Nat), timestamp := 0 }) :=
  stats_403_stale_fallback_cache_unchanged _ _ _ (by decide)

/-- C2 counterexample: the cache holds a stale entry (data 0, written at
time 0, read one full TTL later) and the upstream answers 500 — a non-2xx,
non-403 status.  The handler surfaces the 500 error; it does not swallow it
and return the stale data, contrary to the claim. -/
theorem stats_nonOk_stale_not_returned_cex :
    (poe1StatsHandler (some { data := (0 : Nat), timestamp := 0 })
        STATS_CACHE_TTL (UpstreamOutcome.respond 500 (Except.ok 1))).1 =
      StatsResult.errorStatus 500 (statusErrorText 500) ∧
    (poe1StatsHandler (some { data := (0 : Nat), timestamp := 0 })
        STATS_CACHE_TTL (UpstreamOutcome.respond 500 (Except.ok 1))).1 ≠
      StatsResult.okJson XCacheHeader.stale 0 := by
  constructor
  · rfl
  · intro hc
    exact absurd hc (by simp [poe1StatsHandler, readFresh, statusOk, STATS_CACHE_TTL])

/-- C2 amended: for a cache-eligible (stats) request reaching the upstream,
a non-2xx status other than 403 is always surfaced with the upstream's
status code reproduced — whether or not a stale cache entry exists — and
the cache is left unchanged.  (Stale-fallback applies only to 403 responses
and to exceptions.) -/
theorem stats_nonOk_non403_always_surfaced (cache : Option (CacheEntry α))
    (now : Int) (status : Nat) (body : Except String α)
    (hmiss : readFresh cache now STATS_CACHE_TTL = none)
    (hnok : statusOk status = false) (h403 : status ≠ 403) :
    poe1StatsHandler cache now (UpstreamOutcome.respond status body) =
      (StatsResult.errorStatus status (statusErrorText status), cache) := by
  have hb : (status == 403) = false := by simp [h403]
  simp [poe1StatsHandler, hmiss, hnok, hb]

/-- Witness for C2's amended statement at a concrete input: stale entry
present, upstream 500 — the 500 is surfaced and the cache keeps its entry. -/
theorem stats_nonOk_non403_always_surfaced_witness :
    poe1StatsHandler (some { data := (3 : Nat), timestamp := 0 })
        STATS_CACHE_TTL (UpstreamOutcome.respond 500 (Except.ok 1)) =
      (StatsResult.errorStatus 500 (statusErrorText 500),
       some { data := (3 : Nat), timestamp := 0 }) :=
  stats_nonOk_non403_always_surfaced _ _ _ _ (by decide) (by decide) (by decide)

/-- C8: when the upstream call (or body deserialization) raises an exception
on a cache-eligible request that reached the upstream, the handler returns
the existing cache entry's data (tagged ERROR-STALE) if one exists, and a
500 carrying the exception message otherwise; the cache is unchanged either
way. -/
theorem stats_exception_stale_or_500 (cache : Option (CacheEntry α))
    (now : Int) (msg : String)
    (hmiss : readFresh cache now STATS_CACHE_TTL = none) :
    (cache = none →
      poe1StatsHandler cache now (UpstreamOutcome.throws msg) =
        (StatsResult.errorStatus 500 msg, none)) ∧
    (∀ entry, cache = some entry →
      poe1StatsHandler cache now (UpstreamOutcome.throws msg) =
        (StatsResult.okJson XCacheHeader.errorStale entry.data, cache)) := by
  constructor
  · intro hc
    subst hc
    simp [poe1StatsHandler, readFresh]
  · intro entry hc
    subst hc
    simp [poe1StatsHandler, hmiss]

/-- Witness for C8 at a concrete input: stale entry present, upstream throws
— the entry's data comes back tagged ERROR-STALE. -/
theorem stats_exception_stale_or_500_witness :
    poe1StatsHandler (some { data := (7 : Nat), timestamp := 0 })
        STATS_CACHE_TTL (UpstreamOutcome.throws ("boom")) =
      (StatsResult.okJson XCacheHeader.errorStale 7,
       some { data := (7 : Nat), timestamp := 0 }) :=
  (stats_exception_stale_or_500 _ _ _ (by decide)).2 _ rfl

/-- C10: on a successful stats fetch, the timestamp stored in the new cache
entry is the `now` captured when the handler began — before the gate wait
and the upstream round-trip — so at the later instant `respTime` when the
response actually arrived, the freshly written entry already has positive
recorded age. -/
theorem stats_new_entry_timestamp_is_arrival_time (cache : Option (CacheEntry α))
    (now respTime : Int) (status : Nat) (data : α)
    (hmiss : readFresh cache now STATS_CACHE_TTL = none)
    (hok : statusOk status = true)
    (hlater : now < respTime) :
    ∃ entry,
      (poe1StatsHandler cache now
        (UpstreamOutcome.respond status (Except.ok data))).2 = some entry ∧
      entry.timestamp = now ∧ 0 < respTime - entry.timestamp := by
  refine ⟨{ data := data, timestamp := now }, ?_, rfl, ?_⟩
  · simp [poe1StatsHandler, hmiss, hok]
  · show 0 < respTime - now
    omega

/-- Witness for C10 at a concrete input: empty cache, handler starts at 0,
upstream 200, response received at instant 1. -/
theorem stats_new_entry_timestamp_is_arrival_time_witness :
    ∃ entry,
      (poe1StatsHandler (none : Option (CacheEntry Nat)) 0
        (UpstreamOutcome.respond 200 (Except.ok 7))).2 = some entry ∧
      entry.timestamp = 0 ∧ 0 < 1 - entry.timestamp :=
  stats_new_entry_timestamp_is_arrival_time none 0 1 200 7 rfl (by decide) (by decide)

/-- C5: whenever the search upstream succeeds with a nonempty result list,
the detail fetch is issued with exactly `resultIds ids limit` identifiers in
its URL; that list never exceeds 10 elements regardless of the
caller-supplied limit, and 15 identifiers with the limit unset yield exactly
10. -/
theorem detail_fetch_ids_capped_at_ten (s : ServerState α) (body : SearchBody)
    (status : Nat) (sd : SearchData) (ids : List String)
    (fetchUpstream : UpstreamOutcome (List RawItem))
    (hq : jsFalsyStr body.query = false)
    (hok : statusOk status = true)
    (hres : sd.result = some ids) (hne : 0 < ids.length) :
    (poe1SearchHandler s body
        (UpstreamOutcome.respond status (Except.ok sd)) fetchUpstream).2.2 =
      [SearchCall.searchRequest,
       SearchCall.fetchRequest (resultIds ids body.limit)] ∧
    (resultIds ids body.limit).length ≤ 10 ∧
    (ids.length = 15 → body.limit = none →
      (resultIds ids body.limit).length = 10) := by
  refine ⟨?_, ?_, ?_⟩
  · cases fetchUpstream with
    | throws msg => simp [poe1SearchHandler, hq, hok, hres, hne]
    | respond fstatus fbody =>
      cases fbody with
      | ok raws =>
        by_cases hf : statusOk fstatus <;>
          simp [poe1SearchHandler, hq, hok, hres, hne, hf]
      | error m =>
        by_cases hf : statusOk fstatus <;>
          simp [poe1SearchHandler, hq, hok, hres, hne, hf]
  · have h10 : actualLimit body.limit ≤ 10 := min_le_right _ _
    have hlen : (resultIds ids body.limit).length ≤ (actualLimit body.limit).toNat := by
      simp [resultIds]
    exact le_trans hlen (Int.toNat_le.mpr h10)
  · intro h15 hnone
    simp [resultIds, actualLimit, limitOrDefault, hnone, List.length_take, h15]

/-- Witness for C5 at a concrete input: 15 identifiers, limit unset, detail
fetch answering 500 — the fetch call carries exactly 10 identifiers. -/
theorem detail_fetch_ids_capped_at_ten_witness :
    (poe1SearchHandler (initialServerState Nat)
        { league := none, query := some ("q"), sort := none, limit := none }
        (UpstreamOutcome.respond 200 (Except.ok
          { id := "SID", result := some (List.replicate 15 ("i")), total := 15 }))
        (UpstreamOutcome.respond 500 (Except.ok []))).2.2 =
      [SearchCall.searchRequest,
       SearchCall.fetchRequest (resultIds (List.replicate 15 ("i")) none)] ∧
    (resultIds (List.replicate 15 ("i")) none).length ≤ 10 ∧
    ((List.replicate 15 ("i") : List String).length = 15 → (none : Option Int) = none →
      (resultIds (List.replicate 15 ("i")) none).length = 10) :=
  detail_fetch_ids_capped_at_ten _ _ 200 _ _ _ (by decide) (by decide) rfl (by decide)

/-- C6: a search request whose body lacks a query is answered 400 before any
rate-gate or upstream interaction: no upstream call is issued, and every
gate timestamp and both caches are exactly as they were before the call
(only the request counter, outside the gate/cache state, advances). -/
theorem search_missing_query_short_circuits (s : ServerState α)
    (body : SearchBody) (su : UpstreamOutcome SearchData)
    (fu : UpstreamOutcome (List RawItem))
    (hq : jsFalsyStr body.query = true) :
    (poe1SearchHandler s body su fu).1 =
      SearchResult.errorStatus 400 "Query is required" ∧
    (poe1SearchHandler s body su fu).2.1.lastSearchRequest = s.lastSearchRequest ∧
    (poe1SearchHandler s body su fu).2.1.lastFetchRequest = s.lastFetchRequest ∧
    (poe1SearchHandler s body su fu).2.1.lastPoe1StatsRequest = s.lastPoe1StatsRequest ∧
    (poe1SearchHandler s body su fu).2.1.lastPoe2StatsRequest = s.lastPoe2StatsRequest ∧
    (poe1SearchHandler s body su fu).2.1.poe1StatsCache = s.poe1StatsCache ∧
    (poe1SearchHandler s body su fu).2.1.poe2StatsCache = s.poe2StatsCache ∧
    (poe1SearchHandler s body su fu).2.2 = [] := by
  simp [poe1SearchHandler, hq]

/-- Witness for C6 at a concrete input: absent query, both upstreams set to
throw (they are never consulted). -/
theorem search_missing_query_short_circuits_witness :
    (poe1SearchHandler (initialServerState Nat)
        { league := none, query := none, sort := none, limit := none }
        (UpstreamOutcome.throws ("x")) (UpstreamOutcome.throws ("y"))).1 =
      SearchResult.errorStatus 400 "Query is required" ∧
    (poe1SearchHandler (initialServerState Nat)
        { league := none, query := none, sort := none, limit := none }
        (UpstreamOutcome.throws ("x")) (UpstreamOutcome.throws ("y"))).2.1.lastSearchRequest =
      (initialServerState Nat).lastSearchRequest ∧
    (poe1SearchHandler (initialServerState Nat)
        { league := none, query := none, sort := none, limit := none }
        (UpstreamOutcome.throws ("x")) (UpstreamOutcome.throws ("y"))).2.1.lastFetchRequest =
      (initialServerState Nat).lastFetchRequest ∧
    (poe1SearchHandler (initialServerState Nat)
        { league := none, query := none, sort := none, limit := none }
        (UpstreamOutcome.throws ("x")) (UpstreamOutcome.throws ("y"))).2.1.lastPoe1StatsRequest =
      (initialServerState Nat).lastPoe1StatsRequest ∧
    (poe1SearchHandler (initialServerState Nat)
        { league := none, query := none, sort := none, limit := none }
        (UpstreamOutcome.throws ("x")) (UpstreamOutcome.throws ("y"))).2.1.lastPoe2StatsRequest =
      (initialServerState Nat).lastPoe2StatsRequest ∧
    (poe1SearchHandler (initialServerState Nat)
        { league := none, query := none, sort := none, limit := none }
        (UpstreamOutcome.throws ("x")) (UpstreamOutcome.throws ("y"))).2.1.poe1StatsCache =
      (initialServerState Nat).poe1StatsCache ∧
    (poe1SearchHandler (initialServerState Nat)
        { league := none, query := none, sort := none, limit := none }
        (UpstreamOutcome.throws ("x")) (UpstreamOutcome.throws ("y"))).2.1.poe2StatsCache =
      (initialServerState Nat).poe2StatsCache ∧
    (poe1SearchHandler (initialServerState Nat)
        { league := none, query := none, sort := none, limit := none }
        (UpstreamOutcome.throws ("x")) (UpstreamOutcome.throws ("y"))).2.2 = [] :=
  search_missing_query_short_circuits _ _ _ _ rfl

/-- C3 counterexample: the search upstream succeeds (200, 15 identifiers)
and the detail fetch fails with status 500 — the handler nevertheless
answers with `res.json`, a 200 success carrying `items: []`, instead of
propagating the failure.  The second conjunct records that the detail-fetch
status was indeed a failure status. -/
theorem search_failed_detail_fetch_success_cex :
    (poe1SearchHandler (initialServerState Nat)
        { league := none, query := some ("q"), sort := none, limit := none }
        (UpstreamOutcome.respond 200 (Except.ok
          { id := "SID", result := some (List.replicate 15 ("i")), total := 15 }))
        (UpstreamOutcome.respond 500 (Except.ok []))).1 =
      SearchResult.json
        { searchId := "SID", league := "Standard", total := 15, items := [] } ∧
    statusOk 500 = false := by
  constructor
  · rfl
  · rfl

/-- C3 amended: for search-style requests, a failing search call propagates
(non-ok status surfaced with that status; a thrown search call as a 500
carrying the message), and a throwing detail fetch propagates as a 500 —
but a detail fetch that returns a non-ok status is swallowed: the handler
answers with a 200 success carrying the search metadata and `items: []`. -/
theorem search_failure_propagation_amended (s : ServerState α)
    (body : SearchBody) (hq : jsFalsyStr body.query = false) :
    (∀ status sbody fu, statusOk status = false →
      (poe1SearchHandler s body (UpstreamOutcome.respond status sbody) fu).1 =
        SearchResult.errorStatus status (statusErrorText status)) ∧
    (∀ msg fu,
      (poe1SearchHandler s body (UpstreamOutcome.throws msg) fu).1 =
        SearchResult.errorStatus 500 msg) ∧
    (∀ status sd ids msg, statusOk status = true → sd.result = some ids →
      0 < ids.length →
      (poe1SearchHandler s body (UpstreamOutcome.respond status (Except.ok sd))
        (UpstreamOutcome.throws msg)).1 = SearchResult.errorStatus 500 msg) ∧
    (∀ status sd ids fstatus fbody, statusOk status = true →
      sd.result = some ids → 0 < ids.length → statusOk fstatus = false →
      (poe1SearchHandler s body (UpstreamOutcome.respond status (Except.ok sd))
        (UpstreamOutcome.respond fstatus fbody)).1 =
        SearchResult.json
          { searchId := sd.id, league := leagueOrDefault body.league
            total := sd.total, items := [] }) := by
  refine ⟨?_, ?_, ?_, ?_⟩
  · intro status sbody fu hnok
    cases sbody <;> simp [poe1SearchHandler, hq, hnok]
  · intro msg fu
    simp [poe1SearchHandler, hq]
  · intro status sd ids msg hok hres hne
    simp [poe1SearchHandler, hq, hok, hres, hne]
  · intro status sd ids fstatus fbody hok hres hne hfnok
    cases fbody <;> simp [poe1SearchHandler, hq, hok, hres, hne, hfnok]

/-- Witness for C3's amended statement at a concrete input: search 200 with
15 identifiers, detail fetch 500 — the handler answers with a 200 success
and empty items. -/
theorem search_failure_propagation_amended_witness :
    (poe1SearchHandler (initialServerState Nat)
        { league := none, query := some ("q"), sort := none, limit := none }
        (UpstreamOutcome.respond 200 (Except.ok
          { id := "SID", result := some (List.replicate 15 ("i")), total := 15 }))
        (UpstreamOutcome.respond 500 (Except.ok []))).1 =
      SearchResult.json
        { searchId := "SID", league := "Standard", total := 15, items := [] } :=
  (search_failure_propagation_amended (initialServerState Nat)
      { league := none, query := some ("q"), sort := none, limit := none }
      (by decide)).2.2.2 200
    { id := "SID", result := some (List.replicate 15 ("i")), total := 15 }
    (List.replicate 15 ("i")) 500 (Except.ok []) (by decide) rfl (by decide) (by decide)

/-- C1 (code bug evaluation): two consecutive POST /api/poe/search requests
routed through the search gate, arriving at instants 10000 and 10100 from
the initial module state.  Each call site hands `rateLimitedFetch` a fresh
object literal copying `lastSearchRequest`, so the stamp-write mutates a
discarded temporary and the module variable stays 0; both calls therefore
see an elapsed time beyond `MIN_DELAY`, neither waits, and the two
stamp-writes land 100 ms apart — less than the required 5000 ms. -/
theorem rate_gate_spacing_violated_on_code :
    searchGateStamps (initialServerState Nat) [10000, 10100] = [10000, 10100] ∧
    (10100 : Int) - 10000 < MIN_DELAY := by
  constructor
  · rfl
  · decide

/-- C9: in every run of `rateLimitedFetch`, whatever the upstream outcome
`o`, the trace is an optional wait, then the stamp-write, then the fetch
issuance, and only then the outcome: the stamp precedes the fetch and its
value `(rateLimitedFetchGate ...).stampTime` does not depend on whether the
upstream call succeeds, fails, or throws. -/
theorem stamp_precedes_fetch_issue (refValue now minDelay : Int)
    (o : UpstreamOutcome α) :
    ∃ pre,
      rateLimitedFetchCallTrace refValue now minDelay o =
        pre ++ [CallEvent.stamp (rateLimitedFetchGate refValue now minDelay).stampTime,
                CallEvent.fetchIssued, CallEvent.fetchReturned o] ∧
      (pre = [] ∨ ∃ w, pre = [CallEvent.wait w]) := by
  by_cases h : now - refValue < minDelay
  · exact ⟨[CallEvent.wait (minDelay - (now - refValue))],
      by simp [rateLimitedFetchCallTrace, h], Or.inr ⟨_, rfl⟩⟩
  · exact ⟨[], by simp [rateLimitedFetchCallTrace, h], Or.inl rfl⟩

end PoeProxy
